import Mathlib

/-!
Verification of the MCP client connection manager (`src/client.ts`).

The development shallowly embeds the data model and the operations of the
`MCPClient` class: the command rewriter (`generateCallStdioServerCommand`,
`generateNpxCommand`, `generateUvxCommand`), the transport selector
(`isSSEUrl`, `createTransport`), the connection establisher
(`connectToServer`) and the operation facade (`listTools`, `callTool`).

External effects are made explicit parameters:
* the platform probe `process.platform` becomes a `platform : String`
  argument (the source only tests it against the literal string `win32`);
* success of the external WHATWG URL parser (`new URL(s)`) becomes a
  `parses : String → Bool` argument;
* the underlying protocol session becomes an oracle indexed by the attempt
  number, returning either a value or an error.

Asynchronous suspensions (`setTimeout` backoffs) are recorded in traces as
the list of requested delays, and retry loops are translated with explicit
fuel equal to the remaining loop iterations.
-/

namespace MCPHost

/-- JavaScript-style environment object: a finite map from variable names to
string values, modelled extensionally. -/
def Env : Type := String → Option String

/-- The empty environment object. -/
def emptyEnv : Env := fun _ => none

/-- JS object spread followed by a single key: the semantics of
`\x7b ...e, k: v \x7d` as observed through lookups. -/
def envInsert (e : Env) (k v : String) : Env :=
  fun x => if x = k then some v else e x

/-- `MCPClientConfig.serverConfig`: all fields of the TypeScript interface are
optional. -/
structure ServerConfig where
  command : Option String := none
  args : Option (List String) := none
  env : Option Env := none
  cwd : Option String := none
  sseUrl : Option String := none

/-- `MCPClientConfig`: the transport type tag together with server parameters. -/
structure MCPClientConfig where
  transportType : String
  serverConfig : ServerConfig

/-- The mirror registry URL hard-coded in `generateNpxCommand`. -/
def npmMirrorRegistry : String := "https://registry.npmmirror.com"

/-- The package index URL hard-coded in `generateUvxCommand`. -/
def uvDefaultIndex : String := "https://pypi.tuna.tsinghua.edu.cn/simple"

/-- JS `x || undefined` on an optional string: an empty string is falsy and
collapses to `undefined`. -/
def orUndefined : Option String → Option String
  | none => none
  | some s => if s = "" then none else some s

/-- `generateNpxCommand` (client.ts:44-76), with `process.platform` passed in
as `platform`. -/
def generateNpxCommand (platform : String) (serverConfig : ServerConfig) :
    ServerConfig :=
  let args := serverConfig.args.getD []
  let env := serverConfig.env.getD emptyEnv
  let cwd := orUndefined serverConfig.cwd
  if platform = "win32" then
    { command := some "cmd"
      args := some (["/c", "npx", "--registry=" ++ npmMirrorRegistry] ++ args)
      env := some (envInsert env "NPM_CONFIG_REGISTRY" npmMirrorRegistry)
      cwd := cwd }
  else
    { command := some "bash"
      args := some ["-c",
        "npx --registry=" ++ npmMirrorRegistry ++ " " ++ String.intercalate " " args]
      env := some (envInsert env "NPM_CONFIG_REGISTRY" npmMirrorRegistry)
      cwd := cwd }

/-- `generateUvxCommand` (client.ts:79-112). -/
def generateUvxCommand (platform : String) (serverConfig : ServerConfig) :
    ServerConfig :=
  let args := serverConfig.args.getD []
  let env := serverConfig.env.getD emptyEnv
  let cwd := orUndefined serverConfig.cwd
  if platform = "win32" then
    { command := some "cmd"
      args := some (["/c", "uvx"] ++ args)
      env := some (envInsert env "UV_DEFAULT_INDEX" uvDefaultIndex)
      cwd := cwd }
  else
    { command := some "bash"
      args := some ["-c", "uvx " ++ String.intercalate " " args]
      env := some (envInsert env "UV_DEFAULT_INDEX" uvDefaultIndex)
      cwd := cwd }

/-- `generateCallStdioServerCommand` (client.ts:30-41): dispatch on the
launch command, defaulted to the empty string when absent. -/
def generateCallStdioServerCommand (platform : String)
    (sourceServerConfig : ServerConfig) : ServerConfig :=
  let command := sourceServerConfig.command.getD ""
  if command = "npx" then generateNpxCommand platform sourceServerConfig
  else if command = "uvx" then generateUvxCommand platform sourceServerConfig
  else sourceServerConfig

/-- Errors thrown by `createTransport` (the three `throw new Error(...)`
branches of client.ts:124-151). -/
inductive TransportError where
  | missingCommand
  | invalidURL
  | unsupportedTransport (t : String)
  deriving DecidableEq

/-- The transport handle built by `createTransport`: either a
`StdioClientTransport` (with the field defaults of client.ts:131-136) or an
`SSEClientTransport` on a URL. -/
inductive Transport where
  | stdio (command : String) (args : List String) (env : Option Env)
      (cwd : Option String)
  | sse (url : String)

/-- JS `s.startsWith(p)`: a case-sensitive check that `p` is a literal
leading substring of `s`, computed on the character lists. -/
def strStartsWith (s p : String) : Bool :=
  p.toList.isPrefixOf s.toList

/-- `isSSEUrl` (client.ts:115-122): `new URL(url)` must not throw — modelled
by the external-parser argument `parses` — and the raw string must start with
the literal text of an http or https scheme. -/
def isSSEUrl (parses : String → Bool) (url : String) : Bool :=
  parses url && (strStartsWith url "http://" || strStartsWith url "https://")

/-- `createTransport` (client.ts:124-151). JS truthiness of the optional
string fields is modelled by defaulting to the empty string. -/
def createTransport (parses : String → Bool) (cfg : MCPClientConfig) :
    Except TransportError Transport :=
  if cfg.transportType = "stdio" then
    if cfg.serverConfig.command.getD "" = "" then
      .error .missingCommand
    else
      .ok (.stdio (cfg.serverConfig.command.getD "")
        (cfg.serverConfig.args.getD [])
        cfg.serverConfig.env
        (orUndefined cfg.serverConfig.cwd))
  else if cfg.transportType = "sse" then
    if cfg.serverConfig.sseUrl.getD "" = "" ||
        !isSSEUrl parses (cfg.serverConfig.sseUrl.getD "") then
      .error .invalidURL
    else
      .ok (.sse (cfg.serverConfig.sseUrl.getD ""))
  else
    .error (.unsupportedTransport cfg.transportType)

/-- The characters strictly before the first colon of a string, or `none`
when it has no colon. -/
def upToColon : List Char → Option (List Char)
  | [] => none
  | c :: cs => if c = ':' then some [] else (upToColon cs).map (fun l => c :: l)

/-- The characters strictly after the first colon of a string. -/
def afterColon : List Char → List Char
  | [] => []
  | c :: cs => if c = ':' then cs else afterColon cs

/-- Modelled from the spec: the scheme of a URL string as the external WHATWG
parser reports it — the leading run of ASCII letters before the first colon,
lower-cased (URL schemes are case-insensitive and normalised to lower case).
Returns `none` when the string has no such scheme. -/
def schemeOf (s : String) : Option String :=
  match upToColon s.toList with
  | none => none
  | some cs =>
      if !cs.isEmpty && cs.all Char.isAlpha then
        some (String.mk (cs.map Char.toLower))
      else none

/-- Modelled from the spec: success of the external WHATWG URL parser
(`new URL(s)`), restricted to the shapes of input this development evaluates
it on. A string parses when it has a scheme; for the special schemes http and
https the part after the colon must be two slashes followed by a non-empty
host part. -/
def jsUrlParses (s : String) : Bool :=
  match schemeOf s with
  | none => false
  | some sch =>
      if sch = "http" || sch = "https" then
        match afterColon s.toList with
        | '/' :: '/' :: rest => !rest.isEmpty
        | _ => false
      else true

/-- The validity condition the spec states for stream URLs: syntactically
valid absolute URL whose scheme is http or https. -/
def specValidStreamUrl (s : String) : Bool :=
  jsUrlParses s && (schemeOf s = some "http" || schemeOf s = some "https")

/-- The stdio branch at the top of each `connectToServer` loop iteration
(client.ts:163-172): in stdio mode the stored client config is replaced by a
fresh record holding the rewritten server config; otherwise it is untouched. -/
def rewriteStep (platform : String) (cfg : MCPClientConfig) : MCPClientConfig :=
  if cfg.transportType = "stdio" then
    { transportType := "stdio"
      serverConfig := generateCallStdioServerCommand platform cfg.serverConfig }
  else cfg

/-- Observable trace of one `connectToServer` call. `result` is `none` when
the method returns normally (connected) and `some e` when it throws `e`;
`finalConfig` is the value of `this.clientConfig` when the method ends;
`iterConfigs` records the stored config at the start of each loop iteration
(the value the stdio rewrite is derived from); `attempts` counts loop
iterations; `delays` lists the `setTimeout` backoffs in order. -/
structure ConnectTrace (ε : Type) where
  result : Option (TransportError ⊕ ε)
  finalConfig : MCPClientConfig
  iterConfigs : List MCPClientConfig
  attempts : Nat
  delays : List Nat

/-- The `while (retries < maxRetries)` loop of `connectToServer`
(client.ts:160-188), with `fuel = maxRetries - retries` remaining iterations.
The session-open oracle `σ` gives the outcome of `mcpClient.connect` on the
attempt with the given index (`none` = success). The check
`retries + 1 >= maxRetries` of the catch block is `fuel = 1`, i.e. the
remaining fuel after this iteration is `0`. -/
def connectLoop (platform : String) (parses : String → Bool)
    (σ : Nat → Option ε) :
    MCPClientConfig → Nat → Nat → List MCPClientConfig → List Nat →
    ConnectTrace ε
  | cfg, attempt, 0, iters, delays =>
      { result := none, finalConfig := cfg, iterConfigs := iters
        attempts := attempt, delays := delays }
  | cfg, attempt, fuel + 1, iters, delays =>
      let iters := iters ++ [cfg]
      let cfg := rewriteStep platform cfg
      match createTransport parses cfg with
      | .error te =>
          if fuel = 0 then
            { result := some (.inl te), finalConfig := cfg, iterConfigs := iters
              attempts := attempt + 1, delays := delays }
          else
            connectLoop platform parses σ cfg (attempt + 1) fuel iters
              (delays ++ [1000])
      | .ok _ =>
          match σ attempt with
          | none =>
              { result := none, finalConfig := cfg, iterConfigs := iters
                attempts := attempt + 1, delays := delays }
          | some e =>
              if fuel = 0 then
                { result := some (.inr e), finalConfig := cfg
                  iterConfigs := iters, attempts := attempt + 1
                  delays := delays }
              else
                connectLoop platform parses σ cfg (attempt + 1) fuel iters
                  (delays ++ [1000])

/-- `connectToServer` (client.ts:153-189): `maxRetries = 3`,
`retryDelay = 1000`, starting from `retries = 0`. -/
def connectToServer (platform : String) (parses : String → Bool)
    (σ : Nat → Option ε) (cfg : MCPClientConfig) : ConnectTrace ε :=
  connectLoop platform parses σ cfg 0 3 [] []

/-- Observable trace of one facade operation: its outcome, the number of
attempts made against the session, and the backoff delays requested. -/
structure OpTrace (ε α : Type) where
  result : Except ε α
  attempts : Nat
  delays : List Nat

/-- The `while (retries > 0)` loop of `listTools` (client.ts:196-207); the
remaining `retries` counter is itself the fuel. The session oracle returns,
per attempt index, either an error or the `tools` field of the result object
(`none` when the result object lacks it). The first component distinguishes
`toolsResult` still `undefined` (`none`, loop never broke) from a stored
result. -/
def listToolsLoop (σ : Nat → Except ε (Option (List α))) :
    Nat → Nat → List Nat →
    Except ε (Option (Option (List α))) × Nat × List Nat
  | attempt, 0, delays => (.ok none, attempt, delays)
  | attempt, retries + 1, delays =>
      match σ attempt with
      | .ok r => (.ok (some r), attempt + 1, delays)
      | .error e =>
          if retries = 0 then (.error e, attempt + 1, delays)
          else listToolsLoop σ (attempt + 1) retries (delays ++ [1000])

/-- `listTools` (client.ts:191-213): 3 retries, then
`toolsResult?.tools ?? []`; the outer catch rethrows unchanged. -/
def listTools (σ : Nat → Except ε (Option (List α))) : OpTrace ε (List α) :=
  let out := listToolsLoop σ 0 3 []
  { result := out.1.map (fun toolsResult => (toolsResult.bind id).getD [])
    attempts := out.2.1
    delays := out.2.2 }

/-- `callTool` (client.ts:215-230): a single session call carrying the tool
name, its arguments and the fixed timeout option; the catch rethrows
unchanged. -/
def callTool (σ : String → β → Nat → Except ε γ) (toolName : String)
    (toolArgs : β) : OpTrace ε γ :=
  { result := σ toolName toolArgs (5 * 60 * 1000)
    attempts := 1
    delays := [] }

/-! ## Helper lemmas -/

/-- A rewritten launch command is `cmd` or `bash`, never `npx` or `uvx`, so
applying the rewriter a second time changes nothing. -/
theorem generateCallStdioServerCommand_idem (platform : String)
    (sc : ServerConfig) :
    generateCallStdioServerCommand platform
        (generateCallStdioServerCommand platform sc)
      = generateCallStdioServerCommand platform sc := by
  by_cases h1 : sc.command.getD "" = "npx" <;>
    by_cases h2 : sc.command.getD "" = "uvx" <;>
    by_cases hp : platform = "win32" <;>
    simp [generateCallStdioServerCommand, generateNpxCommand,
      generateUvxCommand, h1, h2, hp]

/-- The per-iteration config replacement of `connectToServer` is idempotent. -/
theorem rewriteStep_idem (platform : String) (cfg : MCPClientConfig) :
    rewriteStep platform (rewriteStep platform cfg) = rewriteStep platform cfg := by
  by_cases h : cfg.transportType = "stdio" <;>
    simp [rewriteStep, h, generateCallStdioServerCommand_idem]

/-- `x || undefined` is the identity away from the empty string. -/
theorem orUndefined_eq_self (o : Option String) (h : o ≠ some "") :
    orUndefined o = o := by
  match o with
  | none => rfl
  | some s =>
      have hs : s ≠ "" := fun he => h (by simp [he])
      simp [orUndefined, hs]

/-- Invariant of the `connectToServer` loop: as soon as one iteration runs,
the stored config is the rewrite of the entry config, and the iteration
configs are the entry config followed by copies of its rewrite. -/
theorem connectLoop_configs (platform : String) (parses : String → Bool)
    (σ : Nat → Option ε) :
    ∀ (fuel : Nat) (cfg : MCPClientConfig) (attempt : Nat)
      (iters : List MCPClientConfig) (delays : List Nat), 0 < fuel →
      (connectLoop platform parses σ cfg attempt fuel iters delays).finalConfig
          = rewriteStep platform cfg
        ∧ ∃ n, (connectLoop platform parses σ cfg attempt fuel
            iters delays).iterConfigs
          = iters ++ cfg :: List.replicate n (rewriteStep platform cfg)
  | 0, _, _, _, _, h => absurd h (by decide)
  | 1, cfg, attempt, iters, delays, _ => by
      unfold connectLoop
      rcases h : createTransport parses (rewriteStep platform cfg) with te | tr
      · exact ⟨by simp [h], ⟨0, by simp [h]⟩⟩
      · rcases hσ : σ attempt with _ | e
        · exact ⟨by simp [h, hσ], ⟨0, by simp [h, hσ]⟩⟩
        · exact ⟨by simp [h, hσ], ⟨0, by simp [h, hσ]⟩⟩
  | fuel + 2, cfg, attempt, iters, delays, _ => by
      have ih := connectLoop_configs platform parses σ (fuel + 1)
        (rewriteStep platform cfg) (attempt + 1) (iters ++ [cfg])
        (delays ++ [1000]) (by omega)
      rw [rewriteStep_idem] at ih
      obtain ⟨ih1, n, hn⟩ := ih
      unfold connectLoop
      rcases h : createTransport parses (rewriteStep platform cfg) with te | tr
      · refine ⟨by simp [h, ih1], ⟨n + 1, ?_⟩⟩
        simp only [h, Nat.succ_ne_zero, if_false]
        simpa using hn
      · rcases hσ : σ attempt with _ | e
        · exact ⟨by simp [h, hσ], ⟨0, by simp [h, hσ]⟩⟩
        · refine ⟨by simp [h, hσ, ih1], ⟨n + 1, ?_⟩⟩
          simp only [h, hσ, Nat.succ_ne_zero, if_false]
          simpa using hn

/-! ## Claims about the command rewriter -/

/-- C7: on a Unix platform the rewriter maps the npx scenario config to the
`bash -c` invocation with the mirror registry flag and environment variable,
and for every caller environment the rewritten environment is the caller
environment with the registry variable merged over it, all other entries
intact. -/
theorem npx_rewrite_unix (platform : String) (hp : platform ≠ "win32") :
    generateCallStdioServerCommand platform
        { command := some "npx", args := some ["-y", "some-pkg"] }
      = { command := some "bash"
          args := some ["-c",
            "npx --registry=https://registry.npmmirror.com -y some-pkg"]
          env := some (fun k =>
            if k = "NPM_CONFIG_REGISTRY" then some npmMirrorRegistry else none)
          cwd := none
          sseUrl := none }
    ∧ ∀ (sc : ServerConfig) (k : String),
        ((generateNpxCommand platform sc).env.getD emptyEnv) k
          = if k = "NPM_CONFIG_REGISTRY" then some npmMirrorRegistry
            else (sc.env.getD emptyEnv) k := by
  constructor
  · simp [generateCallStdioServerCommand, generateNpxCommand, hp]
    exact ⟨by decide, rfl, rfl⟩
  · intro sc k
    simp [generateNpxCommand, hp, envInsert]

/-- C7 witness: the end-to-end npx scenario on the `linux` platform. -/
theorem npx_rewrite_unix_witness :
    generateCallStdioServerCommand "linux"
        { command := some "npx", args := some ["-y", "some-pkg"] }
      = { command := some "bash"
          args := some ["-c",
            "npx --registry=https://registry.npmmirror.com -y some-pkg"]
          env := some (fun k =>
            if k = "NPM_CONFIG_REGISTRY" then some npmMirrorRegistry else none)
          cwd := none
          sseUrl := none } :=
  (npx_rewrite_unix "linux" (by decide)).1

/-- C8: for a launch command that is neither `npx` nor `uvx` — the absent
command defaults to the empty string — the rewriter returns its input
unchanged. -/
theorem rewrite_unknown_command_id (platform : String) (sc : ServerConfig)
    (h1 : sc.command.getD "" ≠ "npx") (h2 : sc.command.getD "" ≠ "uvx") :
    generateCallStdioServerCommand platform sc = sc := by
  simp [generateCallStdioServerCommand, h1, h2]

/-- C8 witness: a `node` command passes through untouched. -/
theorem rewrite_unknown_command_id_witness :
    generateCallStdioServerCommand "linux"
        { command := some "node", args := some ["server.js"] }
      = { command := some "node", args := some ["server.js"] } :=
  rewrite_unknown_command_id "linux" _ (by decide) (by decide)

/-- C9: on a Unix platform the rewriter joins the args with single spaces
into one shell string, without quoting, so the distinct argument lists
`["a b"]` and `["a", "b"]` rewrite to identical server params. -/
theorem npx_args_join_not_injective (platform : String)
    (hp : platform ≠ "win32") :
    (∀ sc : ServerConfig,
        (generateNpxCommand platform sc).args
          = some ["-c", "npx --registry=" ++ npmMirrorRegistry ++ " "
              ++ String.intercalate " " (sc.args.getD [])])
    ∧ generateCallStdioServerCommand platform
          { command := some "npx", args := some ["a b"] }
        = generateCallStdioServerCommand platform
          { command := some "npx", args := some ["a", "b"] }
    ∧ (["a b"] : List String) ≠ ["a", "b"] := by
  refine ⟨fun sc => by simp [generateNpxCommand, hp], ?_, by decide⟩
  simp [generateCallStdioServerCommand, generateNpxCommand, hp]
  rfl

/-- C9 witness: the argument-list collision on the `linux` platform. -/
theorem npx_args_join_not_injective_witness :
    generateCallStdioServerCommand "linux"
        { command := some "npx", args := some ["a b"] }
      = generateCallStdioServerCommand "linux"
        { command := some "npx", args := some ["a", "b"] } :=
  (npx_args_join_not_injective "linux" (by decide)).2.1

/-- C10 counterexample: with the injected key already bound by the caller and
an empty-string working directory, the rewrite maps `cwd` from the
empty string to absent, so the working directory is not preserved
unchanged. -/
theorem rewrite_cwd_not_preserved :
    (generateCallStdioServerCommand "linux"
        { command := some "npx"
          env := some (envInsert emptyEnv "NPM_CONFIG_REGISTRY"
            "https://caller.example")
          cwd := some "" }).cwd = none
    ∧ (some "" : Option String) ≠ none :=
  ⟨rfl, by decide⟩

/-- C10 (amended): both rewrites bind their injected key to the hard-coded
mirror URL — discarding any caller value for that key — preserve every other
environment entry, and preserve the working directory except that an
empty-string working directory is normalised to absent. -/
theorem rewrite_env_override (platform : String) (sc : ServerConfig)
    (k : String) :
    (((generateNpxCommand platform sc).env.getD emptyEnv) "NPM_CONFIG_REGISTRY"
        = some npmMirrorRegistry
      ∧ (k ≠ "NPM_CONFIG_REGISTRY" →
          ((generateNpxCommand platform sc).env.getD emptyEnv) k
            = (sc.env.getD emptyEnv) k)
      ∧ (sc.cwd ≠ some "" → (generateNpxCommand platform sc).cwd = sc.cwd))
    ∧ (((generateUvxCommand platform sc).env.getD emptyEnv) "UV_DEFAULT_INDEX"
        = some uvDefaultIndex
      ∧ (k ≠ "UV_DEFAULT_INDEX" →
          ((generateUvxCommand platform sc).env.getD emptyEnv) k
            = (sc.env.getD emptyEnv) k)
      ∧ (sc.cwd ≠ some "" → (generateUvxCommand platform sc).cwd = sc.cwd)) := by
  refine ⟨⟨?_, ?_, ?_⟩, ?_, ?_, ?_⟩
  · by_cases hp : platform = "win32" <;>
      simp [generateNpxCommand, hp, envInsert]
  · intro hk
    by_cases hp : platform = "win32" <;>
      simp [generateNpxCommand, hp, envInsert, hk]
  · intro hc
    by_cases hp : platform = "win32" <;>
      simp [generateNpxCommand, hp, orUndefined_eq_self _ hc]
  · by_cases hp : platform = "win32" <;>
      simp [generateUvxCommand, hp, envInsert]
  · intro hk
    by_cases hp : platform = "win32" <;>
      simp [generateUvxCommand, hp, envInsert, hk]
  · intro hc
    by_cases hp : platform = "win32" <;>
      simp [generateUvxCommand, hp, orUndefined_eq_self _ hc]

/-- C10 witness: a caller environment that already binds the registry key is
overridden at that key only, and a non-empty working directory survives. -/
theorem rewrite_env_override_witness :
    ((generateNpxCommand "linux"
        { command := some "npx"
          env := some (envInsert (envInsert emptyEnv "OTHER" "keep")
            "NPM_CONFIG_REGISTRY" "https://caller.example")
          cwd := some "/tmp" }).env.getD emptyEnv) "NPM_CONFIG_REGISTRY"
      = some npmMirrorRegistry
    ∧ ((generateNpxCommand "linux"
        { command := some "npx"
          env := some (envInsert (envInsert emptyEnv "OTHER" "keep")
            "NPM_CONFIG_REGISTRY" "https://caller.example")
          cwd := some "/tmp" }).env.getD emptyEnv) "OTHER" = some "keep"
    ∧ (generateNpxCommand "linux"
        { command := some "npx"
          env := some (envInsert (envInsert emptyEnv "OTHER" "keep")
            "NPM_CONFIG_REGISTRY" "https://caller.example")
          cwd := some "/tmp" }).cwd = some "/tmp" :=
  ⟨(rewrite_env_override "linux" _ "OTHER").1.1,
    (rewrite_env_override "linux" _ "OTHER").1.2.1 (by decide),
    (rewrite_env_override "linux" _ "OTHER").1.2.2 (by decide)⟩

/-! ## Claims about the transport selector -/

/-- C4 counterexample: `HTTP://example.com` is a syntactically valid absolute
URL whose scheme is http, yet `createTransport` rejects it, because the code
checks the raw string for the lower-case literal `http://` rather than the
parsed scheme. -/
theorem createTransport_scheme_case_counterexample :
    specValidStreamUrl "HTTP://example.com" = true
    ∧ schemeOf "HTTP://example.com" = some "http"
    ∧ createTransport jsUrlParses
        { transportType := "sse"
          serverConfig := { sseUrl := some "HTTP://example.com" } }
      = .error .invalidURL :=
  ⟨by decide, by decide, rfl⟩

/-- C4 (amended): `createTransport` fails exactly on invalid configuration,
with the matching error — `missingCommand` for a stdio config whose command
is absent or empty; `invalidURL` for an sse config whose URL is absent or
empty, is rejected by the URL parser, or does not start with the literal,
case-sensitive text `http://` or `https://`; `unsupportedTransport` for any
other transport type; otherwise it returns a handle. -/
theorem createTransport_policy (parses : String → Bool)
    (cfg : MCPClientConfig) :
    (createTransport parses cfg = .error .missingCommand ↔
      cfg.transportType = "stdio" ∧ cfg.serverConfig.command.getD "" = "")
    ∧ (createTransport parses cfg = .error .invalidURL ↔
      cfg.transportType = "sse"
        ∧ (cfg.serverConfig.sseUrl.getD "" = ""
          ∨ parses (cfg.serverConfig.sseUrl.getD "") = false
          ∨ (strStartsWith (cfg.serverConfig.sseUrl.getD "") "http://" = false
            ∧ strStartsWith (cfg.serverConfig.sseUrl.getD "") "https://" = false)))
    ∧ (∀ t, createTransport parses cfg = .error (.unsupportedTransport t) ↔
      cfg.transportType = t ∧ t ≠ "stdio" ∧ t ≠ "sse")
    ∧ ((∃ tr, createTransport parses cfg = .ok tr) ↔
      (cfg.transportType = "stdio" ∧ cfg.serverConfig.command.getD "" ≠ "")
      ∨ (cfg.transportType = "sse" ∧ cfg.serverConfig.sseUrl.getD "" ≠ ""
          ∧ isSSEUrl parses (cfg.serverConfig.sseUrl.getD "") = true)) := by
  refine ⟨?_, ?_, ?_, ?_⟩
  · -- missingCommand characterisation
    by_cases h1 : cfg.transportType = "stdio"
    · by_cases h2 : cfg.serverConfig.command.getD "" = "" <;>
        simp [createTransport, h1, h2]
    · by_cases h3 : cfg.transportType = "sse"
      · by_cases h4 : cfg.serverConfig.sseUrl.getD "" = "" <;>
          by_cases h5 : isSSEUrl parses (cfg.serverConfig.sseUrl.getD "") = true <;>
          simp [createTransport, h1, h3, h4, h5]
      · simp [createTransport, h1, h3]
  · -- invalidURL characterisation
    by_cases h1 : cfg.transportType = "stdio"
    · by_cases h2 : cfg.serverConfig.command.getD "" = "" <;>
        simp [createTransport, h1, h2]
    · by_cases h3 : cfg.transportType = "sse"
      · by_cases h4 : cfg.serverConfig.sseUrl.getD "" = ""
        · simp [createTransport, h1, h3, h4]
        · rcases hpar : parses (cfg.serverConfig.sseUrl.getD "") with _ | _ <;>
            rcases hh1 : strStartsWith (cfg.serverConfig.sseUrl.getD "")
              "http://" with _ | _ <;>
            rcases hh2 : strStartsWith (cfg.serverConfig.sseUrl.getD "")
              "https://" with _ | _ <;>
            simp [createTransport, isSSEUrl, h1, h3, h4, hpar, hh1, hh2]
      · simp [createTransport, h1, h3]
  · -- unsupportedTransport characterisation
    intro t
    by_cases h1 : cfg.transportType = "stdio"
    · have hL : createTransport parses cfg ≠ .error (.unsupportedTransport t) := by
        by_cases h2 : cfg.serverConfig.command.getD "" = "" <;>
          simp [createTransport, h1, h2]
      exact ⟨fun he => absurd he hL,
        fun ⟨ht, hb, _⟩ => absurd (ht.symm.trans h1) hb⟩
    · by_cases h3 : cfg.transportType = "sse"
      · have hL : createTransport parses cfg ≠ .error (.unsupportedTransport t) := by
          by_cases h4 : cfg.serverConfig.sseUrl.getD "" = "" <;>
            by_cases h5 : isSSEUrl parses (cfg.serverConfig.sseUrl.getD "") = true <;>
            simp [createTransport, h1, h3, h4, h5]
        exact ⟨fun he => absurd he hL,
          fun ⟨ht, _, hc⟩ => absurd (ht.symm.trans h3) hc⟩
      · constructor
        · intro he
          simp only [createTransport, if_neg h1, if_neg h3,
            Except.error.injEq, TransportError.unsupportedTransport.injEq] at he
          exact ⟨he, fun hs => h1 (he.trans hs), fun hs => h3 (he.trans hs)⟩
        · rintro ⟨rfl, _, _⟩
          simp [createTransport, h1, h3]
  · -- success characterisation
    by_cases h1 : cfg.transportType = "stdio"
    · by_cases h2 : cfg.serverConfig.command.getD "" = "" <;>
        simp [createTransport, h1, h2]
    · by_cases h3 : cfg.transportType = "sse"
      · by_cases h4 : cfg.serverConfig.sseUrl.getD "" = "" <;>
          by_cases h5 : isSSEUrl parses (cfg.serverConfig.sseUrl.getD "") = true <;>
          simp [createTransport, h1, h3, h4, h5]
      · simp [createTransport, h1, h3]

/-! ## Claims about the connection establisher -/

/-- The stdio scenario configuration used to exercise the establisher. -/
def npxScenarioConfig : MCPClientConfig :=
  { transportType := "stdio"
    serverConfig := { command := some "npx", args := some ["-y", "some-pkg"] } }

/-- C1 counterexample: on a stdio config with a missing command — a
`ConfigError` — `connectToServer` still runs 3 attempts with 2 backoff
delays before propagating the error, so the error is neither propagated
immediately nor free of retries and backoff. -/
theorem connect_configError_immediate_counterexample :
    (connectToServer (ε := Unit) "linux" jsUrlParses (fun _ => none)
        { transportType := "stdio", serverConfig := {} }).result
      = some (.inl .missingCommand)
    ∧ (connectToServer (ε := Unit) "linux" jsUrlParses (fun _ => none)
        { transportType := "stdio", serverConfig := {} }).attempts = 3
    ∧ (connectToServer (ε := Unit) "linux" jsUrlParses (fun _ => none)
        { transportType := "stdio", serverConfig := {} }).delays = [1000, 1000]
    ∧ ¬((connectToServer (ε := Unit) "linux" jsUrlParses (fun _ => none)
        { transportType := "stdio", serverConfig := {} }).attempts = 1
      ∧ (connectToServer (ε := Unit) "linux" jsUrlParses (fun _ => none)
        { transportType := "stdio", serverConfig := {} }).delays = []) :=
  ⟨rfl, rfl, rfl, fun h => absurd h.1 (by decide)⟩

/-- C1 (amended): a `ConfigError` from building the transport handle is
caught by the same retry loop as session failures: `connectToServer` makes
3 attempts with 2 backoff delays of 1000 ms and then propagates the
`ConfigError` of the last attempt. -/
theorem connect_configError_policy (platform : String)
    (parses : String → Bool) (σ : Nat → Option ε) (cfg : MCPClientConfig)
    (te : TransportError)
    (h : createTransport parses (rewriteStep platform cfg) = .error te) :
    connectToServer platform parses σ cfg =
      { result := some (.inl te)
        finalConfig := rewriteStep platform cfg
        iterConfigs := [cfg, rewriteStep platform cfg, rewriteStep platform cfg]
        attempts := 3
        delays := [1000, 1000] } := by
  simp [connectToServer, connectLoop, h, rewriteStep_idem]

/-- C1 witness: the missing-command stdio config instantiates the amended
policy. -/
theorem connect_configError_policy_witness :
    connectToServer (ε := Unit) "win32" jsUrlParses (fun _ => none)
        { transportType := "stdio", serverConfig := {} }
      = { result := some (.inl .missingCommand)
          finalConfig := { transportType := "stdio", serverConfig := {} }
          iterConfigs := [{ transportType := "stdio", serverConfig := {} },
            { transportType := "stdio", serverConfig := {} },
            { transportType := "stdio", serverConfig := {} }]
          attempts := 3
          delays := [1000, 1000] } :=
  connect_configError_policy "win32" jsUrlParses (fun _ => none)
    { transportType := "stdio", serverConfig := {} } .missingCommand rfl

/-- C2 counterexample: on the stdio npx scenario with a session that always
fails, the stored config at the start of the three loop iterations is the
original followed twice by its rewrite: the rewriter runs once per retry
iteration — not once per connection attempt cycle — and on retries its input
is the already-rewritten config, which differs from the original. -/
theorem connect_rewrite_per_retry_counterexample :
    (connectToServer (ε := Unit) "linux" jsUrlParses (fun _ => some ())
        npxScenarioConfig).iterConfigs
      = [npxScenarioConfig, rewriteStep "linux" npxScenarioConfig,
          rewriteStep "linux" npxScenarioConfig]
    ∧ (connectToServer (ε := Unit) "linux" jsUrlParses (fun _ => some ())
        npxScenarioConfig).iterConfigs.length ≠ 1
    ∧ rewriteStep "linux" npxScenarioConfig ≠ npxScenarioConfig :=
  ⟨rfl, by decide,
    fun h => absurd (congrArg (fun c => c.serverConfig.command) h) (by decide)⟩

/-- C2 (amended): the rewriter is applied once per retry iteration, each time
to the currently stored configuration; because rewriting is idempotent, the
stored configuration after any number of retries equals the rewrite of the
original configuration. -/
theorem connect_rewrite_stable (platform : String) (parses : String → Bool)
    (σ : Nat → Option ε) (cfg : MCPClientConfig)
    (h : cfg.transportType = "stdio") :
    (∀ sc, generateCallStdioServerCommand platform
        (generateCallStdioServerCommand platform sc)
      = generateCallStdioServerCommand platform sc)
    ∧ (connectToServer platform parses σ cfg).finalConfig.serverConfig
        = generateCallStdioServerCommand platform cfg.serverConfig
    ∧ (connectToServer platform parses σ cfg).iterConfigs.head? = some cfg
    ∧ ∀ c ∈ (connectToServer platform parses σ cfg).iterConfigs.tail,
        c = rewriteStep platform cfg := by
  obtain ⟨h1, n, h2⟩ :=
    connectLoop_configs platform parses σ 3 cfg 0 [] [] (by decide)
  refine ⟨generateCallStdioServerCommand_idem platform, ?_, ?_, ?_⟩
  · show (connectLoop platform parses σ cfg 0 3 [] []).finalConfig.serverConfig = _
    rw [h1]
    simp [rewriteStep, h]
  · show (connectLoop platform parses σ cfg 0 3 [] []).iterConfigs.head? = _
    rw [h2]
    simp
  · intro c hc
    rw [show (connectToServer platform parses σ cfg).iterConfigs
        = (connectLoop platform parses σ cfg 0 3 [] []).iterConfigs from rfl,
      h2] at hc
    simp only [List.nil_append, List.tail_cons] at hc
    exact List.eq_of_mem_replicate hc

/-- C2 witness: the stdio npx scenario with an always-failing session. -/
theorem connect_rewrite_stable_witness :
    (connectToServer (ε := Unit) "linux" jsUrlParses (fun _ => some ())
        npxScenarioConfig).finalConfig.serverConfig
      = generateCallStdioServerCommand "linux" npxScenarioConfig.serverConfig :=
  (connect_rewrite_stable "linux" jsUrlParses (fun _ => some ())
    npxScenarioConfig rfl).2.1

/-- C3: over a transport that builds successfully, a session-open that fails
twice then succeeds makes `connectToServer` return connected after exactly 3
attempts and exactly 2 backoff delays of 1000 ms; a session-open that fails
on every attempt makes it propagate exactly the third attempt's error object
after 3 attempts, without aggregating the earlier errors. -/
theorem connect_retry_policy (platform : String) (parses : String → Bool)
    (σ : Nat → Option ε) (cfg : MCPClientConfig) (tr : Transport)
    (hok : createTransport parses (rewriteStep platform cfg) = .ok tr) :
    (∀ e0 e1, σ 0 = some e0 → σ 1 = some e1 → σ 2 = none →
      connectToServer platform parses σ cfg =
        { result := none
          finalConfig := rewriteStep platform cfg
          iterConfigs := [cfg, rewriteStep platform cfg,
            rewriteStep platform cfg]
          attempts := 3
          delays := [1000, 1000] })
    ∧ (∀ e0 e1 e2, σ 0 = some e0 → σ 1 = some e1 → σ 2 = some e2 →
      connectToServer platform parses σ cfg =
        { result := some (.inr e2)
          finalConfig := rewriteStep platform cfg
          iterConfigs := [cfg, rewriteStep platform cfg,
            rewriteStep platform cfg]
          attempts := 3
          delays := [1000, 1000] }) := by
  constructor
  · intro e0 e1 h0 h1 h2
    simp [connectToServer, connectLoop, hok, h0, h1, h2, rewriteStep_idem]
  · intro e0 e1 e2 h0 h1 h2
    simp [connectToServer, connectLoop, hok, h0, h1, h2, rewriteStep_idem]

/-- The sse scenario configuration used to exercise the establisher over a
transport that builds successfully. -/
def sseScenarioConfig : MCPClientConfig :=
  { transportType := "sse"
    serverConfig := { sseUrl := some "http://example.com" } }

/-- C3 witness: an sse config whose transport builds, with a session failing
twice then succeeding, and one always failing. -/
theorem connect_retry_policy_witness :
    connectToServer (ε := Nat) "linux" jsUrlParses
        (fun n => if n < 2 then some n else none) sseScenarioConfig
      = { result := none
          finalConfig := sseScenarioConfig
          iterConfigs := [sseScenarioConfig, sseScenarioConfig,
            sseScenarioConfig]
          attempts := 3
          delays := [1000, 1000] }
    ∧ connectToServer (ε := Nat) "linux" jsUrlParses (fun n => some (n * 10))
        sseScenarioConfig
      = { result := some (.inr 20)
          finalConfig := sseScenarioConfig
          iterConfigs := [sseScenarioConfig, sseScenarioConfig,
            sseScenarioConfig]
          attempts := 3
          delays := [1000, 1000] } :=
  ⟨(connect_retry_policy "linux" jsUrlParses _ sseScenarioConfig
      (.sse "http://example.com") rfl).1 0 1 rfl rfl rfl,
    (connect_retry_policy "linux" jsUrlParses _ sseScenarioConfig
      (.sse "http://example.com") rfl).2 0 10 20 rfl rfl rfl⟩

/-! ## Claims about the operation facade -/

/-- C5: `listTools` makes at most 3 attempts with a 1000 ms delay between
consecutive attempts; a succeeding attempt yields the tool list of its
result — the empty list when the result carries none — and three failing
attempts re-throw the last observed error. -/
theorem listTools_policy (σ : Nat → Except ε (Option (List α))) :
    (listTools σ).attempts ≤ 3
    ∧ (listTools σ).delays
        = List.replicate ((listTools σ).attempts - 1) 1000
    ∧ (∀ r, σ 0 = .ok r →
        (listTools σ).result = .ok (r.getD []) ∧ (listTools σ).attempts = 1)
    ∧ (∀ e0 r, σ 0 = .error e0 → σ 1 = .ok r →
        (listTools σ).result = .ok (r.getD []) ∧ (listTools σ).attempts = 2)
    ∧ (∀ e0 e1 r, σ 0 = .error e0 → σ 1 = .error e1 → σ 2 = .ok r →
        (listTools σ).result = .ok (r.getD []) ∧ (listTools σ).attempts = 3)
    ∧ (∀ e0 e1 e2, σ 0 = .error e0 → σ 1 = .error e1 → σ 2 = .error e2 →
        (listTools σ).result = .error e2 ∧ (listTools σ).attempts = 3) := by
  rcases h0 : σ 0 with e0 | r0
  · rcases h1 : σ 1 with e1 | r1
    · rcases h2 : σ 2 with e2 | r2 <;>
        simp [listTools, listToolsLoop, Except.map, h0, h1, h2]
    · simp [listTools, listToolsLoop, Except.map, h0, h1]
  · simp [listTools, listToolsLoop, Except.map, h0]

/-- C5 witness: a session failing twice then returning tools `A`, `B` yields
`[A, B]` on the third attempt; an always-failing session propagates the last
error after 3 attempts. -/
theorem listTools_policy_witness :
    ((listTools (fun n => if n < 2 then .error (100 + n) else
        .ok (some ["A", "B"]))).result = .ok ["A", "B"]
      ∧ (listTools (fun n => if n < 2 then .error (100 + n) else
        .ok (some ["A", "B"]))).attempts = 3)
    ∧ ((listTools (α := String) (fun n => .error (100 + n))).result
        = .error 102
      ∧ (listTools (α := String) (fun n => .error (100 + n))).attempts = 3) :=
  ⟨(listTools_policy _).2.2.2.2.1 100 101 (some ["A", "B"]) rfl rfl rfl,
    (listTools_policy _).2.2.2.2.2 100 101 102 rfl rfl rfl⟩

/-- C6: `callTool` makes exactly one session call, with the fixed timeout of
300000 ms (5 minutes), requests no backoff delay, and its outcome — success
or error — is exactly the session's outcome, propagated unchanged. -/
theorem callTool_policy (σ : String → β → Nat → Except ε γ)
    (toolName : String) (toolArgs : β) :
    (callTool σ toolName toolArgs).attempts = 1
    ∧ (callTool σ toolName toolArgs).delays = []
    ∧ (callTool σ toolName toolArgs).result = σ toolName toolArgs 300000 :=
  ⟨rfl, rfl, rfl⟩

end MCPHost
